import Mathlib

/-!
Shallow embedding of the purge-tool backend core
(`src/purge_core/models.py`, `src/purge_core/base_scanner.py`,
`src/purge_core/scanner_manager.py`) and proofs about the claims of the
specification.  Python datetimes are modelled as `Int` seconds since the
epoch (a `timedelta` of `d` days is `d * 86400` seconds); filesystem paths
are modelled as the component lists of absolute POSIX paths; machine state
that the code consults (the filesystem tree, the set of paths held open by
processes, the paths whose deletion raises `PermissionError`) is made an
explicit `FS` value threaded through the removal engine.
-/

namespace PurgeTool

/-- Platform enum `OSPlatform` from `models.py`. -/
inductive OSPlatform where
  | windows | linux | macos | all
deriving DecidableEq

/-- Category enum `CleanupCategory` from `models.py`. -/
inductive CleanupCategory where
  | tempFiles | browserCache | browserCookies | browserHistory
  | systemLogs | applicationLogs | recycleBin | memoryDumps
  | softwareCache | packageCache | thumbnails | downloads | other
deriving DecidableEq

/-- Safety enum `SafetyLevel` from `models.py`. -/
inductive SafetyLevel where
  | safe | warning | dangerous | critical
deriving DecidableEq

/-- Component list of an absolute POSIX path (`pathlib.Path`).  `["a","b"]`
stands for `/a/b`. -/
abbrev FsPath := List String

/-- Rendering `str(path)` of an absolute POSIX path. -/
def pathStr (p : FsPath) : String :=
  "/" ++ String.intercalate "/" p

/-- Candidate record `WasteItem` from `models.py`; timestamps in seconds, sizes in bytes. -/
structure WasteItem where
  path : FsPath
  size : Int := 0
  category : CleanupCategory
  description : String := ""
  safetyLevel : SafetyLevel := .warning
  lastAccessed : Option Int := none
  lastModified : Option Int := none
  owner : Option String := none
  processLocked : Bool := false
  metadata : List (String × String) := []
deriving DecidableEq

/-- Configuration record `ScannerConfig` from `models.py`. -/
structure ScannerConfig where
  enabled : Bool := true
  priority : Int := 10
  maxFileSize : Option Int := none
  minFileAgeDays : Int := 1
  excludePatterns : List String := []
  includePatterns : List String := []
deriving DecidableEq

/-! ### Glob matching (`fnmatch.fnmatch` on POSIX)

`fnmatch` supports `*`, `?` and `[...]` character classes (`[!...]`
negation, `a-z` ranges, `]` directly after the opening bracket is literal,
an unterminated `[` matches a literal bracket).  The recursion is driven by
a fuel argument: every step strictly decreases the sum of the pattern and
string lengths, so fuel `|pattern| + |string| + 1` can never run out. -/

/-- Scan to the closing `]` of a character class: class contents and the
remainder of the pattern, or `none` when the class is unterminated. -/
def findClose : List Char → Option (List Char × List Char)
  | [] => none
  | ']' :: rest => some ([], rest)
  | c :: rest =>
    match findClose rest with
    | some (content, r) => some (c :: content, r)
    | none => none

/-- Parse the inside of a `[...]` class (after the opening bracket):
negation flag, class contents, remainder after the closing bracket. -/
def splitClass (s : List Char) : Option (Bool × List Char × List Char) :=
  match s with
  | '!' :: ']' :: s2 =>
    match findClose s2 with
    | some (c, r) => some (true, ']' :: c, r)
    | none => none
  | '!' :: s1 =>
    match findClose s1 with
    | some (c, r) => some (true, c, r)
    | none => none
  | ']' :: s1 =>
    match findClose s1 with
    | some (c, r) => some (false, ']' :: c, r)
    | none => none
  | _ =>
    match findClose s with
    | some (c, r) => some (false, c, r)
    | none => none

/-- Membership of a character in the contents of a class, with ranges. -/
def matchSet : List Char → Char → Bool
  | [], _ => false
  | a :: '-' :: b :: rest, c =>
    (a.val ≤ c.val && c.val ≤ b.val) || matchSet rest c
  | a :: rest, c => a == c || matchSet rest c

/-- Fuel-indexed glob matcher; each step lowers `|pattern| + |string|`, so
the `fuel = 0` branch is unreachable from `fnmatch`. -/
def globMatch : Nat → List Char → List Char → Bool
  | 0, _, _ => false
  | _ + 1, [], s => s.isEmpty
  | fuel + 1, '*' :: p, [] => globMatch fuel p []
  | fuel + 1, '*' :: p, c :: s =>
    globMatch fuel p (c :: s) || globMatch fuel ('*' :: p) s
  | _ + 1, '?' :: _, [] => false
  | fuel + 1, '?' :: p, _ :: s => globMatch fuel p s
  | fuel + 1, '[' :: p, s =>
    match splitClass p with
    | some (neg, content, rest) =>
      match s with
      | [] => false
      | c :: s2 => (matchSet content c != neg) && globMatch fuel rest s2
    | none =>
      match s with
      | '[' :: s2 => globMatch fuel p s2
      | _ => false
  | fuel + 1, a :: p, c :: s => a == c && globMatch fuel p s
  | _ + 1, _ :: _, [] => false

/-- Glob test `fnmatch.fnmatch(name, pattern)` (POSIX: no case folding). -/
def fnmatch (name pattern : String) : Bool :=
  globMatch (pattern.length + name.length + 1) pattern.toList name.toList

/-! ### Filtering policy (`BaseScanner._should_include`) -/

/-- Age gate of `_should_include`: the `datetime.now()` read inside the
method is the explicit `now` argument.  Rejects when `last_modified` is
present and newer than `now - min_file_age_days` days. -/
def ageGate (config : ScannerConfig) (now : Int) (item : WasteItem) : Bool :=
  match item.lastModified with
  | some t => decide (t > now - config.minFileAgeDays * 86400)
  | none => false

/-- Size gate of `_should_include`.  Python evaluates
`if self.config.max_file_size and ...`, so a configured size of `0` is
falsy and disables the gate. -/
def sizeGate (config : ScannerConfig) (item : WasteItem) : Bool :=
  match config.maxFileSize with
  | some m => decide (m ≠ 0) && decide (item.size > m)
  | none => false

/-- Filtering policy `BaseScanner._should_include`: age gate, size gate, exclusion globs,
then inclusion globs (a non-empty inclusion list is an allow-list). -/
def shouldInclude (config : ScannerConfig) (now : Int) (item : WasteItem) : Bool :=
  if ageGate config now item then false
  else if sizeGate config item then false
  else if config.excludePatterns.any (fun pat => fnmatch (pathStr item.path) pat) then false
  else if !config.includePatterns.isEmpty then
    config.includePatterns.any (fun pat => fnmatch (pathStr item.path) pat)
  else true

/-! ### Machine state and the safe removal engine (`BaseScanner._safe_remove`)

The filesystem is a finite set of file paths and directory paths.  `locked`
holds the paths some running process keeps open (what `_is_file_locked`
detects through psutil); `denied` holds the paths whose `unlink`/`rmdir`
raises `PermissionError`.  `_safe_remove` catches every such error and
reports `False`, so the embedding is a total function returning the verdict
together with the filesystem left behind. -/

structure FS where
  files : List FsPath
  dirs : List FsPath
  locked : List FsPath
  denied : List FsPath
deriving DecidableEq

/-- Existence test `path.exists()`. -/
def FS.existsPath (fs : FS) (p : FsPath) : Bool :=
  fs.files.contains p || fs.dirs.contains p

/-- Holds when `d` is a proper ancestor of `p`. -/
def strictUnder (d p : FsPath) : Bool :=
  d.isPrefixOf p && p ≠ d

/-- The files below directory `d` — what `d.rglob('*')` yields and
`child.is_file()` accepts. -/
def FS.childFiles (fs : FS) (d : FsPath) : List FsPath :=
  fs.files.filter (fun p => strictUnder d p)

/-- Every entry below directory `d`; `rmdir` succeeds only when this is
empty. -/
def FS.childEntries (fs : FS) (d : FsPath) : List FsPath :=
  (fs.files ++ fs.dirs).filter (fun p => strictUnder d p)

/-- Deletion `p.unlink()` of an existing file. -/
def FS.removeFile (fs : FS) (p : FsPath) : FS :=
  { fs with files := fs.files.filter (fun q => q ≠ p) }

/-- Deletion `p.rmdir()` of an existing empty directory. -/
def FS.removeDir (fs : FS) (p : FsPath) : FS :=
  { fs with dirs := fs.dirs.filter (fun q => q ≠ p) }

/-- The `for child in path.rglob('*'): if child.is_file(): child.unlink()`
loop.  A `PermissionError` on a child escapes the loop (it is caught only
by the enclosing `try` of `_safe_remove`), so earlier unlinks stay done. -/
def unlinkFiles : FS → List FsPath → FS × Bool
  | fs, [] => (fs, true)
  | fs, c :: cs =>
    if fs.denied.contains c then (fs, false)
    else unlinkFiles (fs.removeFile c) cs

/-- Removal engine `BaseScanner._safe_remove(path)`: verdict and resulting filesystem.
Branch order follows the source: existence check, process-lock check, then
the guarded file/directory deletion whose `PermissionError`/`OSError` is
caught and turned into `false`. -/
def safeRemove (fs : FS) (p : FsPath) : Bool × FS :=
  if !fs.existsPath p then (false, fs)
  else if fs.locked.contains p then (false, fs)
  else if fs.files.contains p then
    if fs.denied.contains p then (false, fs)
    else (true, fs.removeFile p)
  else
    let step := unlinkFiles fs (fs.childFiles p)
    if !step.2 then (false, step.1)
    else if step.1.denied.contains p then (false, step.1)
    else if !(step.1.childEntries p).isEmpty then (false, step.1)
    else (true, step.1.removeDir p)

/-! ### Scanner contract (`BaseScanner`) -/

/-- One event of the `_scan_implementation` generator: yield an item, or
raise an exception (which ends the generator). -/
inductive DiscoverEvent where
  | yield (item : WasteItem)
  | raise (msg : String)
deriving DecidableEq

/-- A scanner: the `BaseScanner` fields plus the behaviour of its
`_scan_implementation` generator, given as the event sequence one
invocation produces. -/
structure Scanner where
  name : String
  supportedPlatforms : List OSPlatform
  category : CleanupCategory
  description : String := ""
  config : ScannerConfig := {}
  discoverEvents : List DiscoverEvent := []
deriving DecidableEq

/-- Support test `BaseScanner.is_supported` on the platform detected at construction. -/
def Scanner.isSupported (s : Scanner) (cur : OSPlatform) : Bool :=
  s.supportedPlatforms.contains .all || s.supportedPlatforms.contains cur

/-- The `try: for item in self._scan_implementation(): ...` loop of
`BaseScanner.scan`: admitted items accumulate until the generator is
exhausted or raises; the exception is caught and the prefix kept. -/
def consumeDiscovery (config : ScannerConfig) (now : Int) :
    List DiscoverEvent → List WasteItem
  | [] => []
  | .yield it :: rest =>
    if shouldInclude config now it then it :: consumeDiscovery config now rest
    else consumeDiscovery config now rest
  | .raise _ :: _ => []

/-- Scan wrapper `BaseScanner.scan`: empty on an unsupported platform or when disabled;
otherwise the filtered discovery prefix.  Never raises — a discovery
exception is caught inside and only logged. -/
def Scanner.scan (s : Scanner) (cur : OSPlatform) (now : Int) : List WasteItem :=
  if !s.isSupported cur then []
  else if !s.config.enabled then []
  else consumeDiscovery s.config now s.discoverEvents

/-- The `for item in items: try: if self._safe_remove(item.path): ...` loop
of `BaseScanner.cleanup`, threading the filesystem. -/
def cleanupLoop : FS → List WasteItem → List FsPath × FS
  | fs, [] => ([], fs)
  | fs, it :: rest =>
    let step := safeRemove fs it.path
    let tail := cleanupLoop step.2 rest
    (if step.1 then it.path :: tail.1 else tail.1, tail.2)

/-- Cleanup wrapper `BaseScanner.cleanup`: no-op on an unsupported platform, else the
removal loop; returns the successfully removed paths. -/
def Scanner.cleanupRun (s : Scanner) (cur : OSPlatform) (fs : FS)
    (items : List WasteItem) : List FsPath × FS :=
  if !s.isSupported cur then ([], fs)
  else cleanupLoop fs items

/-! ### Orchestrator (`ScannerManager`) -/

/-- Report record `ScanResult` from `models.py` (id, timestamp and duration are opaque to
the claims and omitted; `scanId` stands for the generated id). -/
structure ScanResult where
  scanId : String
  platform : OSPlatform
  totalFound : Nat := 0
  totalSize : Int := 0
  items : List WasteItem := []
  errors : List String := []

/-- One record of `CleanupResult.failed_items`
(`{'path': ..., 'error': ..., 'scanner': ...}`). -/
structure FailedItem where
  path : String
  error : String
  scanner : String
deriving DecidableEq

/-- Report record `CleanupResult` from `models.py`. -/
structure CleanupResult where
  cleanupId : String
  totalRemoved : Nat := 0
  totalFreed : Int := 0
  removedItems : List WasteItem := []
  failedItems : List FailedItem := []
  errors : List String := []

/-- Registration `ScannerManager.register_scanner`: append only when supported on the
current platform. -/
def registerScanner (cur : OSPlatform) (mgr : List Scanner) (s : Scanner) :
    List Scanner :=
  if s.isSupported cur then mgr ++ [s] else mgr

/-- A manager whose scanner list was populated through
`register_scanner` (directly or via `register_scanner_class` /
`_discover_scanners`, which both funnel into it). -/
def registerAll (cur : OSPlatform) (ss : List Scanner) : List Scanner :=
  ss.foldl (registerScanner cur) []

/-- Selection `ScannerManager._filter_scanners`: `None` or an empty name list selects
every enabled scanner, otherwise the enabled scanners whose name is
listed. -/
def filterScanners (scanners : List Scanner) (names : Option (List String)) :
    List Scanner :=
  match names with
  | none => scanners.filter (fun s => s.config.enabled)
  | some ns =>
    if ns.isEmpty then scanners.filter (fun s => s.config.enabled)
    else scanners.filter (fun s => ns.contains s.name && s.config.enabled)

/-- The `for scanner in scanners_to_run: try: ... except: ...` loop of
`scan_system`, with the outcome of each `scanner.scan()` call supplied by
`outcome` (`.error` models an exception escaping the call). -/
def scanSystemWith (outcome : Scanner → Except String (List WasteItem))
    (scanners : List Scanner) (names : Option (List String))
    (scanId : String) (platform : OSPlatform) : ScanResult :=
  let toRun := filterScanners scanners names
  let acc := toRun.foldl
    (fun (acc : List WasteItem × List String) s =>
      match outcome s with
      | .ok items => (acc.1 ++ items, acc.2)
      | .error e => (acc.1, acc.2 ++ ["Scanner " ++ s.name ++ " failed: " ++ e]))
    ([], [])
  { scanId, platform, items := acc.1, errors := acc.2,
    totalFound := acc.1.length, totalSize := (acc.1.map (fun it => it.size)).sum }

/-- Orchestration `ScannerManager.scan_system` over scanners that use `BaseScanner.scan`
(every scanner of this repository does): the `scan()` call itself never
raises, so each outcome is `ok`. -/
def scanSystem (scanners : List Scanner) (names : Option (List String))
    (scanId : String) (cur : OSPlatform) (now : Int) : ScanResult :=
  scanSystemWith (fun s => .ok (s.scan cur now)) scanners names scanId cur

/-- Introspection record of `ScannerManager.get_scanner_info`. -/
structure ScannerInfo where
  name : String
  category : CleanupCategory
  description : String
  enabled : Bool
  supported : Bool
  platforms : List OSPlatform
deriving DecidableEq

/-- Introspection view `ScannerManager.get_scanner_info`. -/
def getScannerInfo (cur : OSPlatform) (scanners : List Scanner) :
    List ScannerInfo :=
  scanners.map (fun s =>
    ⟨s.name, s.category, s.description, s.config.enabled, s.isSupported cur,
      s.supportedPlatforms⟩)

/-- Insert an item into the bucket of scanner index `i`, keeping the
`defaultdict`'s insertion order of keys and of items in each bucket. -/
def addToBucket : List (Nat × List WasteItem) → Nat → WasteItem →
    List (Nat × List WasteItem)
  | [], i, it => [(i, [it])]
  | (j, l) :: rest, i, it =>
    if j = i then (j, l ++ [it]) :: rest
    else (j, l) :: addToBucket rest i it

/-- The grouping loop of `ScannerManager.cleanup`: each item goes to the
bucket of the first registered scanner whose category matches; an item with
no matching scanner goes to no bucket. -/
def groupByScanner (scanners : List Scanner) (items : List WasteItem) :
    List (Nat × List WasteItem) :=
  items.foldl
    (fun bs it =>
      match scanners.findIdx? (fun s => decide (s.category = it.category)) with
      | some i => addToBucket bs i it
      | none => bs)
    []

/-- The failure record `ScannerManager.cleanup` appends for a dispatched
item whose path was not returned. -/
def mkFailed (s : Scanner) (it : WasteItem) : FailedItem :=
  ⟨pathStr it.path, "Cleanup failed", s.name⟩

/-- The `for scanner, scanner_items in items_by_scanner.items():` loop of
`ScannerManager.cleanup`: per bucket, run the scanner's cleanup, credit the
returned paths, record the rest as failures; accumulate in bucket order and
thread the filesystem. -/
def runBuckets (scanners : List Scanner) (cur : OSPlatform) :
    FS → List (Nat × List WasteItem) → List WasteItem × List FailedItem × FS
  | fs, [] => ([], [], fs)
  | fs, (i, its) :: rest =>
    match scanners[i]? with
    | some s =>
      let step := s.cleanupRun cur fs its
      let rem := its.filter (fun it => step.1.contains it.path)
      let fld := (its.filter (fun it => !step.1.contains it.path)).map (mkFailed s)
      let tail := runBuckets scanners cur step.2 rest
      (rem ++ tail.1, fld ++ tail.2.1, tail.2.2)
    | none => runBuckets scanners cur fs rest

/-- Per-bucket trace of a cleanup run: the owning scanner, the items
dispatched to it, and the paths its `cleanup` call returned (against the
filesystem state reached at that point of the run). -/
def bucketRuns (scanners : List Scanner) (cur : OSPlatform) :
    FS → List (Nat × List WasteItem) → List (Scanner × List WasteItem × List FsPath)
  | _, [] => []
  | fs, (i, its) :: rest =>
    match scanners[i]? with
    | some s =>
      let step := s.cleanupRun cur fs its
      (s, its, step.1) :: bucketRuns scanners cur step.2 rest
    | none => bucketRuns scanners cur fs rest

/-- Cleanup orchestration `ScannerManager.cleanup`: the dry-run short-circuit, else grouping,
per-scanner dispatch, and the final totals computed from the credited
items. -/
def managerCleanup (scanners : List Scanner) (cur : OSPlatform)
    (cleanupId : String) (fs : FS) (items : List WasteItem) (dryRun : Bool) :
    CleanupResult × FS :=
  if dryRun then
    ({ cleanupId, removedItems := items, totalRemoved := items.length,
       totalFreed := (items.map (fun it => it.size)).sum }, fs)
  else
    let run := runBuckets scanners cur fs (groupByScanner scanners items)
    ({ cleanupId, removedItems := run.1, failedItems := run.2.1,
       totalRemoved := run.1.length,
       totalFreed := (run.1.map (fun it => it.size)).sum }, run.2.2)

/-! ### Concrete scenarios used to evaluate the claims -/

/-- Scanner yielding one temp-file candidate (scenario for claim C2). -/
def c2ScanOne : Scanner :=
  { name := "One", supportedPlatforms := [.all], category := .tempFiles,
    discoverEvents := [.yield { path := ["one"], category := .tempFiles, description := "t" }] }

/-- Scanner whose discovery raises immediately (scenario for claim C2). -/
def c2ScanTwo : Scanner :=
  { name := "Two", supportedPlatforms := [.all], category := .browserCache,
    discoverEvents := [.raise "boom"] }

/-- Scanner yielding one log candidate (scenario for claim C2). -/
def c2ScanThree : Scanner :=
  { name := "Three", supportedPlatforms := [.all], category := .systemLogs,
    discoverEvents := [.yield { path := ["three"], category := .systemLogs, description := "l" }] }

/-- The only registered scanner in the claim C1 scenario; owns `temp_files`. -/
def c1Scanner : Scanner :=
  { name := "Temp", supportedPlatforms := [.all], category := .tempFiles }

/-- A requested item of category `downloads`, owned by no registered
scanner (scenario for claim C1). -/
def c1Item : WasteItem :=
  { path := ["dl", "x"], size := 5, category := .downloads, description := "d" }

/-- Filesystem for the claim C4 witness: `/a` removable, `/l` held open by
a process, `/q` protected by permissions. -/
def c4Fs : FS := ⟨[["a"], ["l"], ["q"]], [], [["l"]], [["q"]]⟩

/-- The scanner owning `temp_files` in the claim C5 scenario. -/
def c5Scanner : Scanner :=
  { name := "TempScanner", supportedPlatforms := [.all], category := .tempFiles }

/-- Item whose removal succeeds in the claim C5 scenario. -/
def c5ItemGood : WasteItem :=
  { path := ["t", "a"], size := 3, category := .tempFiles, description := "a" }

/-- Item whose removal fails (its path does not exist) in the claim C5
scenario. -/
def c5ItemBad : WasteItem :=
  { path := ["t", "b"], size := 4, category := .tempFiles, description := "b" }

/-- Filesystem for the claim C5 scenario: only `/t/a` exists. -/
def c5Fs : FS := ⟨[["t", "a"]], [], [], []⟩

/-- Candidate matching both an exclusion and an inclusion glob of
`c7Config` (witness for claim C7). -/
def c7Item : WasteItem := { path := ["tmp", "a"], category := .other, description := "" }

/-- Config whose exclusion glob and inclusion glob both match `/tmp/a`
(witness for claim C7). -/
def c7Config : ScannerConfig :=
  { excludePatterns := ["/tmp/*"], includePatterns := ["/tmp/a"] }

/-- Candidate modified at epoch time 0 (claims C8 and C9). -/
def c8Item : WasteItem :=
  { path := ["y"], category := .other, description := "", lastModified := some 0 }

/-- Candidate carrying no `last_modified` timestamp (claim C8). -/
def c8ItemNoTs : WasteItem := { path := ["z"], category := .other, description := "" }

/-- Scanner supported everywhere (witness for claim C10). -/
def c10Sup : Scanner :=
  { name := "Sup", supportedPlatforms := [.all], category := .tempFiles }

/-- Scanner supported on Windows only (witness for claim C10, registered on
Linux). -/
def c10Unsup : Scanner :=
  { name := "Unsup", supportedPlatforms := [.windows], category := .systemLogs }

/-! ### Theorems -/

/-- Claim C1 (code_bug evidence): in a cleanup with `dryRun = false`, a
requested item whose category is owned by no registered scanner is silently
dropped by `ScannerManager.cleanup` — it appears neither in the failure
list (as the claim and the spec require) nor among the removed items. -/
theorem cleanup_unowned_category_dropped :
    (managerCleanup [c1Scanner] .linux "c" ⟨[["x"]], [], [], []⟩ [c1Item] false).1.removedItems = []
    ∧ (managerCleanup [c1Scanner] .linux "c" ⟨[["x"]], [], [], []⟩ [c1Item] false).1.failedItems = []
    ∧ (managerCleanup [c1Scanner] .linux "c" ⟨[["x"]], [], [], []⟩ [c1Item] false).1.errors = []
    ∧ (managerCleanup [c1Scanner] .linux "c" ⟨[["x"]], [], [], []⟩ [c1Item] false).1.totalFreed = 0 := by
  decide

/-- Claim C2 counterexample: with three registered enabled scanners whose
middle one raises during discovery, `scan_system` returns the candidates of
the other two but its error list is empty — not "exactly one entry" as the
claim states, because `BaseScanner.scan` catches the discovery exception
before the orchestrator can record it. -/
theorem scan_discovery_error_swallowed_cex :
    (scanSystem [c2ScanOne, c2ScanTwo, c2ScanThree] none "s" .linux 0).errors = []
    ∧ (scanSystem [c2ScanOne, c2ScanTwo, c2ScanThree] none "s" .linux 0).items
      = [{ path := ["one"], category := .tempFiles, description := "t" },
         { path := ["three"], category := .systemLogs, description := "l" }] := by
  decide

/-- Claim C3 (code_bug evidence): `_safe_remove` on directory `/d` holding
subdirectory `/d/s` with file `/d/s/f` unlinks the descendant file, never
removes the subdirectory, and then fails `rmdir` — it returns `false` after
partially destroying the tree, instead of removing all descendants before
the directory or failing without partial effect. -/
theorem safe_remove_nested_dir_partial :
    safeRemove ⟨[["d", "s", "f"]], [["d"], ["d", "s"]], [], []⟩ ["d"]
      = (false, ⟨[], [["d"], ["d", "s"]], [], []⟩) := by
  decide

/-- Claim C6: dry-run cleanup is a pure simulation — the filesystem is
returned untouched (and the report does not even depend on it), every
requested item is credited as removed, and the freed total is the sum of
all requested sizes. -/
theorem dry_run_pure_simulation (scanners : List Scanner) (cur : OSPlatform)
    (cid : String) (fs fs2 : FS) (items : List WasteItem) :
    (managerCleanup scanners cur cid fs items true).2 = fs
    ∧ (managerCleanup scanners cur cid fs items true).1.removedItems = items
    ∧ (managerCleanup scanners cur cid fs items true).1.totalRemoved = items.length
    ∧ (managerCleanup scanners cur cid fs items true).1.totalFreed
      = (items.map (fun it => it.size)).sum
    ∧ (managerCleanup scanners cur cid fs items true).1.failedItems = []
    ∧ (managerCleanup scanners cur cid fs items true).1
      = (managerCleanup scanners cur cid fs2 items true).1 := by
  simp [managerCleanup]

/-- Claim C7: a candidate matching any exclusion glob is rejected by
`_should_include`, whatever the inclusion patterns say — exclusion takes
precedence over inclusion. -/
theorem exclusion_overrides_inclusion (config : ScannerConfig) (now : Int)
    (item : WasteItem) (pat : String) (hmem : pat ∈ config.excludePatterns)
    (hmatch : fnmatch (pathStr item.path) pat = true) :
    shouldInclude config now item = false := by
  have hany : config.excludePatterns.any (fun q => fnmatch (pathStr item.path) q) = true :=
    List.any_eq_true.mpr ⟨pat, hmem, hmatch⟩
  unfold shouldInclude
  by_cases h1 : ageGate config now item <;> by_cases h2 : sizeGate config item <;>
    simp [h1, h2, hany]

/-- Witness for claim C7: `/tmp/a` matches both the exclusion glob
`/tmp/*` and the inclusion glob `/tmp/a`, and is rejected. -/
theorem exclusion_overrides_inclusion_witness :
    c7Config.includePatterns.any (fun q => fnmatch (pathStr c7Item.path) q) = true
    ∧ shouldInclude c7Config 0 c7Item = false :=
  ⟨by decide, exclusion_overrides_inclusion c7Config 0 c7Item "/tmp/*" (by decide) (by decide)⟩

/-- Claim C8: a candidate whose `last_modified` lies within
`min_file_age_days` of now is rejected whatever the rest of the
configuration says, and a candidate without the timestamp is never rejected
by the age gate — its verdict is unchanged under any `min_file_age_days`
and any clock reading. -/
theorem age_gate_protects_recent :
    (∀ (config : ScannerConfig) (now t : Int) (item : WasteItem),
      item.lastModified = some t → now - t < config.minFileAgeDays * 86400 →
      shouldInclude config now item = false)
    ∧ (∀ (config : ScannerConfig) (now d now2 : Int) (item : WasteItem),
      item.lastModified = none →
      shouldInclude config now item
        = shouldInclude { config with minFileAgeDays := d } now2 item) := by
  constructor
  · intro config now t item hlm hage
    have hgate : ageGate config now item = true := by
      simp [ageGate, hlm]; omega
    simp [shouldInclude, hgate]
  · intro config now d now2 item hlm
    simp [shouldInclude, ageGate, sizeGate, hlm]

/-- Witness for claim C8: a candidate modified at time 0 is rejected at
time 86000 under the default one-day minimum age, and a timestamp-free
candidate keeps its verdict across age settings 5 and 99 and different
clock readings. -/
theorem age_gate_protects_recent_witness :
    shouldInclude {} 86000 c8Item = false
    ∧ shouldInclude { minFileAgeDays := 5 } 7 c8ItemNoTs
      = shouldInclude { minFileAgeDays := 99 } 654321 c8ItemNoTs :=
  ⟨age_gate_protects_recent.1 {} 86000 0 c8Item (by decide) (by decide),
   age_gate_protects_recent.2 { minFileAgeDays := 5 } 7 99 654321 c8ItemNoTs (by decide)⟩

/-- Claim C9 counterexample: `_should_include` reads `datetime.now()`, so
two evaluations with an identical candidate and identical config can
disagree — the candidate modified at time 0 is rejected when the clock
reads 0 and admitted when it reads 864000. -/
theorem should_include_time_dependent_cex :
    shouldInclude {} 0 c8Item ≠ shouldInclude {} 864000 c8Item := by
  decide

/-- Claim C9 (amended): `_should_include` is a pure function of the
candidate, the config, and the clock reading taken during the evaluation —
identical candidate, config and time always yield the same verdict, and
the embedding is side-effect free. -/
theorem should_include_deterministic (it1 it2 : WasteItem)
    (g1 g2 : ScannerConfig) (n1 n2 : Int)
    (hc : it1 = it2) (hg : g1 = g2) (hn : n1 = n2) :
    shouldInclude g1 n1 it1 = shouldInclude g2 n2 it2 := by
  subst hc; subst hg; subst hn; rfl

/-- Witness for claim C9: two syntactically identical evaluations agree. -/
theorem should_include_deterministic_witness :
    shouldInclude {} 42 c7Item = shouldInclude {} 42 c7Item :=
  should_include_deterministic c7Item c7Item {} {} 42 42 rfl rfl rfl

/-- Unrolling of the scanner loop inside `scanSystemWith`: the accumulated
items are the concatenation of the successful outcomes and the accumulated
errors are the entries of the failing ones, both in scanner order. -/
theorem scanFold_spec (f : Scanner → Except String (List WasteItem)) :
    ∀ (ss : List Scanner) (acc : List WasteItem × List String),
      ss.foldl
        (fun (acc : List WasteItem × List String) s =>
          match f s with
          | .ok items => (acc.1 ++ items, acc.2)
          | .error e => (acc.1, acc.2 ++ ["Scanner " ++ s.name ++ " failed: " ++ e]))
        acc
      = (acc.1 ++ ss.flatMap (fun s => match f s with | .ok l => l | .error _ => []),
         acc.2 ++ ss.filterMap (fun s =>
           match f s with
           | .ok _ => none
           | .error e => some ("Scanner " ++ s.name ++ " failed: " ++ e)))
  | [], acc => by simp
  | s :: ss, acc => by
    cases h : f s with
    | ok l =>
      simp only [List.foldl_cons, h]
      rw [scanFold_spec f ss]
      simp [h, List.flatMap_cons, List.filterMap_cons]
    | error e =>
      simp only [List.foldl_cons, h]
      rw [scanFold_spec f ss]
      simp [h, List.flatMap_cons, List.filterMap_cons]

/-- Claim C2 (amended): the scanner loop of `scan_system` isolates
failures — for any outcome of the individual `scan()` calls, the report's
items are exactly the concatenation of the successful scanners' candidates
(an erroring scanner contributes zero) and the error list holds exactly one
entry per scanner whose `scan()` call raised, so no failure aborts the
remaining scanners.  For the scanners of this repository, however, `scan()`
never raises — a discovery error is swallowed inside `BaseScanner.scan` —
so the error list of `scan_system` is always empty. -/
theorem scan_system_partial_failure_isolation
    (f : Scanner → Except String (List WasteItem)) (scanners : List Scanner)
    (names : Option (List String)) (sid : String) (pf cur : OSPlatform) (now : Int) :
    (scanSystemWith f scanners names sid pf).items
      = (filterScanners scanners names).flatMap
          (fun s => match f s with | .ok l => l | .error _ => [])
    ∧ (scanSystemWith f scanners names sid pf).errors
      = (filterScanners scanners names).filterMap
          (fun s => match f s with
            | .ok _ => none
            | .error e => some ("Scanner " ++ s.name ++ " failed: " ++ e))
    ∧ (scanSystem scanners names sid cur now).errors = [] := by
  have h := scanFold_spec f (filterScanners scanners names) ([], [])
  have h2 := scanFold_spec (fun s => .ok (s.scan cur now))
    (filterScanners scanners names) ([], [])
  refine ⟨?_, ?_, ?_⟩
  · simp only [scanSystemWith, h]; simp
  · simp only [scanSystemWith, h]; simp
  · simp only [scanSystem, scanSystemWith, h2]
    simp [List.filterMap_eq_nil_iff]

/-- Lemma: `unlinkFiles` only unlinks files: the directory, lock and permission
components are untouched and no new file appears. -/
theorem unlinkFiles_spec : ∀ (cs : List FsPath) (fs : FS),
    (unlinkFiles fs cs).1.dirs = fs.dirs
    ∧ (unlinkFiles fs cs).1.locked = fs.locked
    ∧ (unlinkFiles fs cs).1.denied = fs.denied
    ∧ ∀ p, p ∈ (unlinkFiles fs cs).1.files → p ∈ fs.files
  | [], fs => by simp [unlinkFiles]
  | c :: cs, fs => by
    by_cases h : c ∈ fs.denied
    · simp [unlinkFiles, h]
    · have hcon : ¬(fs.denied.contains c = true) := by simpa using h
      have ih := unlinkFiles_spec cs (fs.removeFile c)
      simp only [unlinkFiles]
      rw [if_neg hcon]
      exact ⟨ih.1, ih.2.1, ih.2.2.1,
        fun p hp => List.mem_of_mem_filter (ih.2.2.2 p hp)⟩

/-- A path that does not exist is not removed and changes nothing. -/
theorem safeRemove_not_exists (fs : FS) (p : FsPath)
    (h : fs.existsPath p = false) : safeRemove fs p = (false, fs) := by
  simp [safeRemove, h]

/-- After a successful `_safe_remove` the path no longer exists (for a
filesystem whose file and directory sets are disjoint). -/
theorem safeRemove_success_gone (fs : FS) (p : FsPath)
    (hdisj : ∀ q, q ∈ fs.files → q ∉ fs.dirs)
    (hsucc : (safeRemove fs p).1 = true) :
    (safeRemove fs p).2.existsPath p = false := by
  by_cases he : fs.existsPath p = true
  · by_cases hl : p ∈ fs.locked
    · exfalso; simp [safeRemove, he, hl] at hsucc
    · by_cases hf : p ∈ fs.files
      · by_cases hd : p ∈ fs.denied
        · exfalso; simp [safeRemove, he, hl, hf, hd] at hsucc
        · have hres : (safeRemove fs p).2 = fs.removeFile p := by
            simp [safeRemove, he, hl, hf, hd]
          rw [hres]
          have hpd : p ∉ fs.dirs := hdisj p hf
          simp [FS.existsPath, FS.removeFile, hpd]
      · by_cases hok : (unlinkFiles fs (fs.childFiles p)).2 = true
        · by_cases hd : p ∈ (unlinkFiles fs (fs.childFiles p)).1.denied
          · exfalso; simp [safeRemove, he, hl, hf, hok, hd] at hsucc
          · by_cases hemp : (unlinkFiles fs (fs.childFiles p)).1.childEntries p = []
            · have hres : (safeRemove fs p).2
                  = (unlinkFiles fs (fs.childFiles p)).1.removeDir p := by
                simp [safeRemove, he, hl, hf, hok, hd, hemp]
              rw [hres]
              have hsub := (unlinkFiles_spec (fs.childFiles p) fs).2.2.2
              have hnf : p ∉ (unlinkFiles fs (fs.childFiles p)).1.files :=
                fun hmem => hf (hsub p hmem)
              simp [FS.existsPath, FS.removeDir, hnf]
            · exfalso
              simp [safeRemove, he, hl, hf, hok, hd, hemp] at hsucc
        · exfalso; simp [safeRemove, he, hl, hf, hok] at hsucc
  · exfalso; simp [safeRemove, he] at hsucc

/-- Claim C4: the removal engine never throws across its boundary (its
embedding is a total function into a verdict and a filesystem) — a
non-existent path yields `false` and no change, a process-locked path
yields `false` and no change, a permission-denied file yields `false` and
no change, and after any successful removal a second call on the same path
returns `false` without change. -/
theorem safe_remove_api_contract (fs : FS) (p : FsPath)
    (hdisj : ∀ q, q ∈ fs.files → q ∉ fs.dirs) :
    (fs.existsPath p = false → safeRemove fs p = (false, fs))
    ∧ (fs.locked.contains p = true → safeRemove fs p = (false, fs))
    ∧ (fs.files.contains p = true → fs.denied.contains p = true →
        safeRemove fs p = (false, fs))
    ∧ ((safeRemove fs p).1 = true →
        safeRemove (safeRemove fs p).2 p = (false, (safeRemove fs p).2)) := by
  refine ⟨fun h => safeRemove_not_exists fs p h, fun hl => ?_, fun hf hd => ?_, fun hs => ?_⟩
  · have hl2 : p ∈ fs.locked := by simpa using hl
    by_cases he : fs.existsPath p = true
    · simp [safeRemove, he, hl2]
    · exact safeRemove_not_exists fs p (by simpa using he)
  · have hf2 : p ∈ fs.files := by simpa using hf
    have hd2 : p ∈ fs.denied := by simpa using hd
    have he : fs.existsPath p = true := by
      simp [FS.existsPath, hf2]
    by_cases hl : p ∈ fs.locked
    · simp [safeRemove, he, hl]
    · simp [safeRemove, he, hl, hf2, hd2]
  · exact safeRemove_not_exists _ p (safeRemove_success_gone fs p hdisj hs)

/-- Witness for claim C4 on `c4Fs`: a missing path `/b`, a process-locked
path `/l`, a permission-protected path `/q`, and the removable `/a` whose
second removal fails after the first succeeds. -/
theorem safe_remove_api_contract_witness :
    safeRemove c4Fs ["b"] = (false, c4Fs)
    ∧ safeRemove c4Fs ["l"] = (false, c4Fs)
    ∧ safeRemove c4Fs ["q"] = (false, c4Fs)
    ∧ safeRemove (safeRemove c4Fs ["a"]).2 ["a"] = (false, (safeRemove c4Fs ["a"]).2) :=
  ⟨(safe_remove_api_contract c4Fs ["b"] (by decide)).1 (by decide),
   (safe_remove_api_contract c4Fs ["l"] (by decide)).2.1 (by decide),
   (safe_remove_api_contract c4Fs ["q"] (by decide)).2.2.1 (by decide) (by decide),
   (safe_remove_api_contract c4Fs ["a"] (by decide)).2.2.2 (by decide)⟩

/-- The dispatch loop of `ScannerManager.cleanup` yields, in bucket order,
exactly the credited items and the failure records of the `bucketRuns`
trace. -/
theorem runBuckets_eq (scanners : List Scanner) (cur : OSPlatform) :
    ∀ (bs : List (Nat × List WasteItem)) (fs : FS),
      (runBuckets scanners cur fs bs).1
        = (bucketRuns scanners cur fs bs).flatMap
            (fun t => t.2.1.filter (fun it => t.2.2.contains it.path))
      ∧ (runBuckets scanners cur fs bs).2.1
        = (bucketRuns scanners cur fs bs).flatMap
            (fun t => (t.2.1.filter (fun it => !t.2.2.contains it.path)).map (mkFailed t.1))
  | [], fs => by simp [runBuckets, bucketRuns]
  | (i, its) :: rest, fs => by
    cases h : scanners[i]? with
    | none =>
      have ih := runBuckets_eq scanners cur rest fs
      simp [runBuckets, bucketRuns, h, ih.1, ih.2]
    | some s =>
      have ih := runBuckets_eq scanners cur rest ((s.cleanupRun cur fs its).2)
      simp [runBuckets, bucketRuns, h, ih.1, ih.2]

/-- Claim C5 (amended): in a cleanup with `dryRun = false`, an item
dispatched to its owning scanner whose path that scanner's cleanup
returned is credited as removed; a dispatched item whose path was not
returned is recorded as a failure carrying reason "Cleanup failed" and the
owning scanner's name; and the freed-bytes total equals the sum of the
sizes of exactly the credited items. -/
theorem cleanup_dispatch_accounting (scanners : List Scanner) (cur : OSPlatform)
    (cid : String) (fs : FS) (items : List WasteItem)
    (s : Scanner) (its : List WasteItem) (paths : List FsPath) (it : WasteItem)
    (hb : (s, its, paths) ∈ bucketRuns scanners cur fs (groupByScanner scanners items))
    (hit : it ∈ its) :
    (paths.contains it.path = true →
      it ∈ (managerCleanup scanners cur cid fs items false).1.removedItems)
    ∧ (paths.contains it.path = false →
      mkFailed s it ∈ (managerCleanup scanners cur cid fs items false).1.failedItems)
    ∧ (managerCleanup scanners cur cid fs items false).1.totalFreed
      = ((managerCleanup scanners cur cid fs items false).1.removedItems.map
          (fun x => x.size)).sum := by
  have heq := runBuckets_eq scanners cur (groupByScanner scanners items) fs
  refine ⟨fun hc => ?_, fun hc => ?_, by simp [managerCleanup]⟩
  · have hmem : it ∈ (runBuckets scanners cur fs (groupByScanner scanners items)).1 := by
      rw [heq.1]
      exact List.mem_flatMap.mpr ⟨(s, its, paths), hb, List.mem_filter.mpr ⟨hit, hc⟩⟩
    simpa [managerCleanup] using hmem
  · have hmem : mkFailed s it
        ∈ (runBuckets scanners cur fs (groupByScanner scanners items)).2.1 := by
      rw [heq.2]
      refine List.mem_flatMap.mpr ⟨(s, its, paths), hb, ?_⟩
      exact List.mem_map.mpr ⟨it, List.mem_filter.mpr ⟨hit, by simpa using hc⟩, rfl⟩
    simpa [managerCleanup] using hmem

/-- Claim C5 counterexample: the reason string the code records for a
dispatched item whose removal fails is "Cleanup failed", not the
"cleanup failed" the claim states — the claimed record is absent from the
failure list. -/
theorem cleanup_failure_reason_capitalized_cex :
    (managerCleanup [c5Scanner] .linux "c" c5Fs [c5ItemGood, c5ItemBad] false).1.failedItems
      = [{ path := "/t/b", error := "Cleanup failed", scanner := "TempScanner" }]
    ∧ ({ path := "/t/b", error := "cleanup failed", scanner := "TempScanner" } : FailedItem)
      ∉ (managerCleanup [c5Scanner] .linux "c" c5Fs [c5ItemGood, c5ItemBad] false).1.failedItems := by
  decide

/-- Witness for claim C5: `/t/a` exists and is credited as removed, `/t/b`
does not exist and yields the failure record. -/
theorem cleanup_dispatch_accounting_witness :
    c5ItemGood
      ∈ (managerCleanup [c5Scanner] .linux "c" c5Fs [c5ItemGood, c5ItemBad] false).1.removedItems
    ∧ mkFailed c5Scanner c5ItemBad
      ∈ (managerCleanup [c5Scanner] .linux "c" c5Fs [c5ItemGood, c5ItemBad] false).1.failedItems :=
  ⟨(cleanup_dispatch_accounting [c5Scanner] .linux "c" c5Fs [c5ItemGood, c5ItemBad]
      c5Scanner [c5ItemGood, c5ItemBad] [["t", "a"]] c5ItemGood (by decide) (by decide)).1
      (by decide),
   (cleanup_dispatch_accounting [c5Scanner] .linux "c" c5Fs [c5ItemGood, c5ItemBad]
      c5Scanner [c5ItemGood, c5ItemBad] [["t", "a"]] c5ItemBad (by decide) (by decide)).2.1
      (by decide)⟩

/-- Every scanner in a manager populated through `register_scanner` is
supported on the current platform. -/
theorem registerAll_supported (cur : OSPlatform) :
    ∀ (ss acc : List Scanner), (∀ s ∈ acc, s.isSupported cur = true) →
      ∀ s ∈ ss.foldl (registerScanner cur) acc, s.isSupported cur = true
  | [], _, hacc => hacc
  | s :: ss, acc, hacc => by
    intro t ht
    refine registerAll_supported cur ss (registerScanner cur acc s) ?_ t ht
    intro u hu
    by_cases h : s.isSupported cur = true
    · rw [registerScanner, if_pos h] at hu
      rcases List.mem_append.mp hu with h1 | h1
      · exact hacc u h1
      · rw [List.mem_singleton.mp h1]; exact h
    · rw [registerScanner, if_neg h] at hu
      exact hacc u hu

/-- Claim C10: registration admits only scanners supported on the current
platform, so every `get_scanner_info` entry of such a manager carries
`supported = true`, every scanner `scan_system`'s filter selects is
supported, and every scanner a cleanup bucket is dispatched to is
supported. -/
theorem registered_scanners_supported (cur : OSPlatform) (ss : List Scanner)
    (names : Option (List String)) (items : List WasteItem) :
    (∀ info ∈ getScannerInfo cur (registerAll cur ss), info.supported = true)
    ∧ (∀ s ∈ filterScanners (registerAll cur ss) names, s.isSupported cur = true)
    ∧ (∀ i its s, (i, its) ∈ groupByScanner (registerAll cur ss) items →
        (registerAll cur ss)[i]? = some s → s.isSupported cur = true) := by
  have hall : ∀ s ∈ registerAll cur ss, s.isSupported cur = true :=
    registerAll_supported cur ss [] (by simp)
  refine ⟨?_, ?_, ?_⟩
  · intro info hinfo
    rcases List.mem_map.mp hinfo with ⟨s, hs, rfl⟩
    exact hall s hs
  · intro s hs
    cases names with
    | none => exact hall s (List.mem_of_mem_filter hs)
    | some ns =>
      simp only [filterScanners] at hs
      by_cases h : ns.isEmpty = true
      · rw [if_pos h] at hs; exact hall s (List.mem_of_mem_filter hs)
      · rw [if_neg h] at hs; exact hall s (List.mem_of_mem_filter hs)
  · intro i its s _ hget
    exact hall s (List.getElem?_mem hget)

/-- Witness for claim C10: on Linux, registering an all-platform scanner
and a Windows-only scanner keeps only the former, whose info entry says
supported and which is the scanner both selection and dispatch reach. -/
theorem registered_scanners_supported_witness :
    c10Sup.isSupported .linux = true
    ∧ ({ name := "Sup", category := .tempFiles, description := "", enabled := true,
         supported := true, platforms := [.all] } : ScannerInfo).supported = true :=
  ⟨(registered_scanners_supported .linux [c10Sup, c10Unsup] none []).2.1
      c10Sup (by decide),
   (registered_scanners_supported .linux [c10Sup, c10Unsup] none []).1
      { name := "Sup", category := .tempFiles, description := "", enabled := true,
        supported := true, platforms := [.all] } (by decide)⟩

end PurgeTool
